import Mathlib

/-
Shallow embedding of the onet `ServiceProcessor` (src/processor.go):
handler registry, signature validation, REST bridge, and the
dispatch engine with its streaming tunnel.

Modelling conventions:
  * `reflect.Type` values are modelled by the inductive `GoType`; only the
    kinds the source inspects are distinguished.  `GoType.typeString` models
    `reflect.Type.String()`; for struct types the string is stored verbatim
    (it is the only place where the rendered name is load-bearing).
  * Go maps become functions `String → Option _`; map insertion is function
    override (last write wins, as for a Go map).
  * A run-time panic (out-of-range index, reflection panic) is modelled by
    an operation returning `none` at its outer `Option` layer.
  * External collaborators (protobuf encode/decode) are parameters of the
    dispatch model, exactly as the spec treats them (black boxes).
  * Channels carrying finitely many values before being closed are modelled
    by the list of values sent, in order; "the channel was closed" is a
    boolean in the model of the forwarding goroutine.
  * Go errors are modelled by their message strings (`Option String`,
    `none` = nil error).
-/

namespace Onet

/-- Kinds of Go types, mirroring the `reflect.Kind` values that
`processor.go` inspects. -/
inductive GoKind where
  | func
  | ptr
  | struct
  | interface
  | chan
  | bool
  | int
  | slice
  | uint8
  | other
deriving DecidableEq, Repr

/-- Model of `reflect.Type`, restricted to the structure `processor.go`
examines.  `struc` carries the string rendered by `reflect.Type.String()`
(for a named struct `pkg.Name`, for an anonymous struct the literal
`struct ... ` form) together with its fields; `iface`/`named` carry whether
the type implements the `error` interface. -/
inductive GoType where
  | func (ins : List GoType) (outs : List GoType)
  | ptr (elem : GoType)
  | struc (name : String) (fields : List (String × GoType))
  | iface (implErr : Bool)
  | chan (elem : GoType)
  | boolT
  | intT
  | sliceT (elem : GoType)
  | uint8T
  | named (name : String) (implErr : Bool)

/-- The `Kind()` of a modelled Go type. -/
def GoType.kind : GoType → GoKind
  | .func _ _ => .func
  | .ptr _ => .ptr
  | .struc _ _ => .struct
  | .iface _ => .interface
  | .chan _ => .chan
  | .boolT => .bool
  | .intT => .int
  | .sliceT _ => .slice
  | .uint8T => .uint8
  | .named _ _ => .other

/-- Model of `reflect.Type.Elem()`: defined for pointers, channels and
slices; calling it on any other kind panics in Go, hence `none`. -/
def GoType.elem : GoType → Option GoType
  | .ptr e => some e
  | .chan e => some e
  | .sliceT e => some e
  | _ => none

/-- Model of `reflect.Type.String()`.  Struct types return their stored
rendered name verbatim; the remaining cases are plausible renderings and are
only ever used inside diagnostic messages, never for route keys. -/
def GoType.typeString : GoType → String
  | .func _ _ => "func"
  | .ptr e => "*" ++ e.typeString
  | .struc n _ => n
  | .iface b => if b then "error" else "interface \x7b\x7d"
  | .chan e => "chan " ++ e.typeString
  | .boolT => "bool"
  | .intT => "int"
  | .sliceT e => "[]" ++ e.typeString
  | .uint8T => "uint8"
  | .named n _ => n

/-- Model of `t.Implements(errType)` for the modelled types. -/
def GoType.implementsError : GoType → Bool
  | .iface b => b
  | .named _ b => b
  | _ => false

/-- Dynamic behaviour of a registered handler value (the `interface{}`
stored in a `serviceHandler`).  A unary handler returns `(reply, err)`;
a streaming handler returns the finite sequence of values it will send on
its output channel before closing it, together with `err`.  `other` stands
for any value that is not a handler of either shape. -/
inductive HandlerVal (Val : Type) where
  | unary (f : Val → Val × Option String)
  | streaming (f : Val → List Val × Option String)
  | other

/-- A Go function value as passed to the registration operations: its
reflected type together with its dynamic behaviour. -/
structure GoFunc (Val : Type) where
  type : GoType
  val : HandlerVal Val

/-- Mirror of the `serviceHandler` struct: the handler value, the message
type (`cr.Elem()`), and the streaming flag. -/
structure serviceHandler (Val : Type) where
  handler : HandlerVal Val
  msgType : GoType
  streaming : Bool

/-- The `handlers` map of a `ServiceProcessor`. -/
abbrev Registry (Val : Type) := String → Option (serviceHandler Val)

/-- Map insertion `p.handlers[pm] = sh` (overwrites an existing entry). -/
def Registry.insert {Val : Type} (p : Registry Val) (k : String)
    (v : serviceHandler Val) : Registry Val :=
  fun s => if s = k then some v else p s

/-- The empty registry produced by `NewServiceProcessor`. -/
def Registry.empty (Val : Type) : Registry Val := fun _ => none

/-- Mirror of `handlerInputCheck`: `none` means the check passed, `some msg`
is the returned error message. -/
def handlerInputCheck : GoType → Option String
  | .func ins _ =>
    match ins with
    | [cr] =>
      match cr with
      | .ptr e =>
        if e.kind = GoKind.struct then none
        else some "Argument must be a pointer to *struct*"
      | _ => some "Argument must be a *pointer* to a struct"
    | _ => some "Need one argument: *struct"
  | _ => some "Input is not a function"

/-- Auxiliary recursion for `stringSplitDot`: the accumulator holds the
current segment reversed. -/
def splitDotAux : List Char → List Char → List String
  | [], acc => [String.mk acc.reverse]
  | c :: cs, acc =>
    if c = '.' then String.mk acc.reverse :: splitDotAux cs []
    else splitDotAux cs (c :: acc)

/-- Model of `strings.Split(s, ".")`: the segments of `s` between the dots
(never empty; `[s]` when `s` has no dot, `[""]` for the empty string). -/
def stringSplitDot (s : String) : List String := splitDotAux s.toList []

/-- First-output check of `createServiceHandler` (lines 290-300): the first
return value must be an interface or a pointer to a struct. -/
def checkUnaryOut0 : GoType → Option String
  | .iface _ => none
  | .ptr e =>
    if e.kind = GoKind.struct then none
    else some "1st return value must be a pointer to a *struct* or an interface"
  | _ => some "1st return value must be a *pointer* to a struct or an interface"

/-- Mirror of `createServiceHandler`: checks the two outputs, then derives
the route key `strings.Split(cr.Elem().String(), ".")[1]`.  The outer
`Option` is `none` when the code panics (`In(0)`/`Elem()` on an unsuitable
type, or the split index `[1]` being out of range). -/
def createServiceHandler {Val : Type} (f : GoFunc Val) :
    Option (Except String (String × serviceHandler Val)) :=
  match f.type with
  | .func ins outs =>
    match outs with
    | [ret0, ret1] =>
      match checkUnaryOut0 ret0 with
      | some msg => some (.error msg)
      | none =>
        if ret1.implementsError then
          match ins[0]? with
          | none => none
          | some cr =>
            match cr.elem with
            | none => none
            | some ce =>
              match (stringSplitDot ce.typeString)[1]? with
              | none => none
              | some pm => some (.ok (pm, ⟨f.val, ce, false⟩))
        else
          some (.error ("2nd return value has to implement error, but is: "
            ++ ret1.typeString))
    | _ => some (.error "Need 2 return values: network.Body and error")
  | _ => none

/-- Mirror of `RegisterHandler`: input check, `createServiceHandler`, then
`p.handlers[pm] = sh`.  `none` models a panic; otherwise the result is the
post-state registry together with the returned error (`none` = nil). -/
def RegisterHandler {Val : Type} (p : Registry Val) (f : GoFunc Val) :
    Option (Registry Val × Option String) :=
  match handlerInputCheck f.type with
  | some e => some (p, some e)
  | none =>
    match createServiceHandler f with
    | none => none
    | some (.error e) => some (p, some e)
    | some (.ok (pm, sh)) => some (p.insert pm sh, none)

/-- First-output check of `RegisterStreamingHandler` (lines 99-110): a
channel of an interface or of a pointer to a struct. -/
def checkStreamOut0 : GoType → Option String
  | .chan ce =>
    match ce with
    | .iface _ => none
    | .ptr e =>
      if e.kind = GoKind.struct then none
      else some "1st return value must be a channel of a pointer to a *struct*"
    | _ => some "1st return value must be a channel of a *pointer* to a struct"
  | _ => some "1st return value must be a channel"

/-- Second-output check of `RegisterStreamingHandler` (lines 112-118): a
channel of booleans. -/
def checkStreamOut1 : GoType → Option String
  | .chan ce =>
    if ce.kind = GoKind.bool then none
    else some "2nd return value must be a boolean channel"
  | _ => some "2nd return value must be a channel"

/-- Mirror of `RegisterStreamingHandler`: input check, the three output
checks in source order, then the route-key split and insertion with the
streaming flag set.  `none` models the split-index panic. -/
def RegisterStreamingHandler {Val : Type} (p : Registry Val) (f : GoFunc Val) :
    Option (Registry Val × Option String) :=
  match handlerInputCheck f.type with
  | some e => some (p, some e)
  | none =>
    match f.type with
    | .func ins outs =>
      match outs with
      | [ret0, ret1, ret2] =>
        match checkStreamOut0 ret0 with
        | some e => some (p, some e)
        | none =>
          match checkStreamOut1 ret1 with
          | some e => some (p, some e)
          | none =>
            if ret2.implementsError then
              match ins[0]? with
              | none => none
              | some cr =>
                match cr.elem with
                | none => none
                | some ce =>
                  match (stringSplitDot ce.typeString)[1]? with
                  | none => none
                  | some pm => some (p.insert pm ⟨f.val, ce, true⟩, none)
            else
              some (p, some ("3rd return value has to implement error, but is: "
                ++ ret2.typeString))
      | _ => some (p, some "Need 3 return values: chan interface\x7b\x7d, chan bool and error")
    | _ => none

/-- Mirror of `RegisterHandlers`: registers in order, stopping at the first
error (prior successful registrations are kept). -/
def RegisterHandlers {Val : Type} (p : Registry Val) :
    List (GoFunc Val) → Option (Registry Val × Option String)
  | [] => some (p, none)
  | f :: fs =>
    match RegisterHandler p f with
    | none => none
    | some (p', some e) => some (p', some e)
    | some (p', none) => RegisterHandlers p' fs

/-- Mirror of `RegisterStreamingHandlers`. -/
def RegisterStreamingHandlers {Val : Type} (p : Registry Val) :
    List (GoFunc Val) → Option (Registry Val × Option String)
  | [] => some (p, none)
  | f :: fs =>
    match RegisterStreamingHandler p f with
    | none => none
    | some (p', some e) => some (p', some e)
    | some (p', none) => RegisterStreamingHandlers p' fs

/-- The GET-parameter kind derived by `prepareHandlerGET`. -/
inductive kindGET where
  | invalidGET
  | emptyGET
  | intGET
  | sliceGET
deriving DecidableEq, Repr

/-- Mirror of `prepareHandlerGET`: inspects `TypeOf(f).In(0).Elem()`.  The
outer `Option` is `none` when `In(0)` or `Elem()` would panic. -/
def prepareHandlerGET : GoType → Option (Except String (kindGET × String))
  | .func ins _ =>
    match ins[0]? with
    | none => none
    | some cr =>
      match cr.elem with
      | none => none
      | some in0 =>
        match in0 with
        | .struc _ fields =>
          match fields with
          | [] => some (.ok (.emptyGET, ""))
          | [(fname, ftype)] =>
            if (match ftype with
                | .sliceT e => e.kind == GoKind.uint8
                | _ => false) then
              some (.ok (.sliceGET, fname))
            else if ftype.kind = GoKind.int then
              some (.ok (.intGET, fname))
            else
              some (.error "only byte slices and int are supported")
          | _ => some (.error "number of fields must be 0 or 1")
        | _ => some (.error "input argument must be a struct")
  | _ => none

/-- What `RegisterRESTHandler` installs on the HTTP router for one route:
the path pattern handed to `HandleFunc` and the data captured by the
request closure. -/
structure RESTRoute (Val : Type) where
  pattern : String
  k : kindGET
  fieldNameGET : String
  ns : String
  resource : String
  sh : serviceHandler Val

/-- Mirror of `RegisterRESTHandler` up to the `HandleFunc` call: method and
version validation, `createServiceHandler`, and (for GET) the field-kind
derivation.  The registry component of the result is the post-state of
`p.handlers`, which this method never writes (routes go to the HTTP mux).
`none` models a panic inside `createServiceHandler`. -/
def RegisterRESTHandler {Val : Type} (p : Registry Val) (f : GoFunc Val)
    (since : Int) (ns method : String) :
    Option (Registry Val × Except String (RESTRoute Val)) :=
  if method ≠ "GET" ∧ method ≠ "POST" ∧ method ≠ "PUT" then
    some (p, .error "invalid REST method")
  else if since < 3 then
    some (p, .error "earliest supported API level must be greater or equal to 3")
  else
    match createServiceHandler f with
    | none => none
    | some (.error e) => some (p, .error e)
    | some (.ok (resource, sh)) =>
      match (if method = "GET" then prepareHandlerGET f.type
             else some (.ok (.invalidGET, ""))) with
      | none => none
      | some (.error e) => some (p, .error e)
      | some (.ok (k, fieldNameGET)) =>
        let finalSlash := if k = kindGET.intGET ∨ k = kindGET.sliceGET then "/" else ""
        some (p, .ok ⟨"/v" ++ toString since ++ "/" ++ ns ++ "/" ++ resource
          ++ finalSlash, k, fieldNameGET, ns, resource, sh⟩)

/-- Matcher for the source regular expressions of the form
`^/vD/ns/resource/T$` where `D` is one single digit and `T` is a nonempty
run of characters satisfying `tailOk` (the source interpolates `ns` and
`resource` literally; this model is faithful for namespace/resource strings
without regex metacharacters). -/
def matchVPath (tailOk : Char → Bool) (ns resource p : String) : Bool :=
  match p.toList with
  | '/' :: 'v' :: d :: rest =>
    d.isDigit && ("/" ++ ns ++ "/" ++ resource ++ "/").toList.isPrefixOf rest &&
      (!(rest.drop ("/" ++ ns ++ "/" ++ resource ++ "/").toList.length).isEmpty &&
        (rest.drop ("/" ++ ns ++ "/" ++ resource ++ "/").toList.length).all tailOk)
  | _ => false

/-- The source regex for kind `intGET`:
`^/v\d/ns/resource/\d+$` (processor.go line 202 - note the single `\d`
after `v`). -/
def matchGETIntPath (ns resource p : String) : Bool :=
  matchVPath Char.isDigit ns resource p

/-- The source regex for kind `sliceGET`:
`^/v\d/ns/resource/[0-9a-f]+$` (processor.go line 214). -/
def matchGETHexPath (ns resource p : String) : Bool :=
  matchVPath (fun c => c.isDigit || ('a' ≤ c && c ≤ 'f')) ns resource p

/-- Model of `path.Split(p)`'s second component: the part of `p` after the
final `/` (all of `p` when it has no slash). -/
def pathBase (s : String) : String :=
  String.mk (s.toList.foldl (fun acc c => if c = '/' then [] else acc ++ [c]) [])

/-- Value of a hexadecimal digit, as accepted by `hex.DecodeString`. -/
def hexVal (c : Char) : Option Nat :=
  if '0' ≤ c ∧ c ≤ '9' then some (c.toNat - 48)
  else if 'a' ≤ c ∧ c ≤ 'f' then some (c.toNat - 87)
  else if 'A' ≤ c ∧ c ≤ 'F' then some (c.toNat - 70 + 10)
  else none

/-- Model of `hex.DecodeString`: fails on an odd-length input or a
non-hexadecimal character. -/
def hexDecodeList : List Char → Option (List Nat)
  | [] => some []
  | [_] => none
  | a :: b :: rest =>
    match hexVal a, hexVal b, hexDecodeList rest with
    | some x, some y, some r => some ((x * 16 + y) :: r)
    | _, _, _ => none

/-- Standard base64 alphabet used by `base64.StdEncoding`. -/
def b64Char (n : Nat) : Char :=
  ("ABCDEFGHIJKLMNOPQRSTUVWXYZabcdefghijklmnopqrstuvwxyz0123456789+/".toList).getD n '='

/-- Model of `base64.StdEncoding.EncodeToString` over a list of bytes. -/
def base64Encode : List Nat → List Char
  | [] => []
  | [a] => [b64Char (a / 4), b64Char (a % 4 * 16), '=', '=']
  | [a, b] => [b64Char (a / 4), b64Char (a % 4 * 16 + b / 16), b64Char (b % 16 * 4), '=']
  | a :: b :: c :: rest =>
    [b64Char (a / 4), b64Char (a % 4 * 16 + b / 16),
     b64Char (b % 16 * 4 + c / 64), b64Char (c % 64)] ++ base64Encode rest

/-- The parts of an incoming `*http.Request` that the REST closure reads. -/
structure Request where
  method : String
  urlPath : String
  contentType : String
  body : String

/-- Outcome of the REST closure up to the point where the JSON payload is
handed to `json.Unmarshal`: either an `http.Error` with its status code, or
the payload `msgBuf` about to be decoded for the handler. -/
inductive RestStep where
  | httpError (status : Nat) (msg : String)
  | payload (msgBuf : String)
deriving DecidableEq, Repr

/-- POST/PUT branch of the REST closure: content-type check, then the body
is passed through as the payload. -/
def postPutStep (r : Request) : RestStep :=
  if r.contentType ≠ "application/json" then
    .httpError 400 "content type needs to be application/json"
  else .payload r.body

/-- Mirror of the request closure `h` built by `RegisterRESTHandler`
(lines 195-249), up to the construction of `msgBuf`.  For `sliceGET` the
exact text of the hex-decoding error is the library's and is abbreviated
here; no status code is affected. -/
def restHandlerStep {Val : Type} (route : RESTRoute Val) (r : Request) : RestStep :=
  match r.method with
  | "GET" =>
    if route.k = kindGET.emptyGET then .payload "\x7b\x7d"
    else if route.k = kindGET.intGET then
      if matchGETIntPath route.ns route.resource r.urlPath then
        .payload ("\x7b\"" ++ route.fieldNameGET ++ "\": " ++ pathBase r.urlPath ++ "\x7d")
      else .httpError 404 "invalid path"
    else if route.k = kindGET.sliceGET then
      if matchGETHexPath route.ns route.resource r.urlPath then
        match hexDecodeList (pathBase r.urlPath).toList with
        | none => .httpError 400 "encoding/hex: invalid input"
        | some bs =>
          .payload ("\x7b\"" ++ route.fieldNameGET ++ "\": \""
            ++ String.mk (base64Encode bs) ++ "\"\x7d")
      else .httpError 404 "invalid path"
    else .httpError 400 "invalid GET"
  | "POST" => postPutStep r
  | "PUT" => postPutStep r
  | m => .httpError 405 ("unsupported method: " ++ m)

/-- Modelled from the spec/claim words only (refinement comparison for the
GET path-acceptance rule): a path is accepted when it matches
`^/v\d+/ns/resource/\d+$` with one or MORE digits after `v`.  Compare with
`matchGETIntPath`, the translation of the source regex. -/
def specGETIntAccept (ns resource p : String) : Bool :=
  match p.toList with
  | '/' :: 'v' :: rest =>
    let vd := rest.takeWhile Char.isDigit
    let mid := ("/" ++ ns ++ "/" ++ resource ++ "/").toList
    !vd.isEmpty &&
      (let after := rest.drop vd.length
       mid.isPrefixOf after &&
         (let t := after.drop mid.length
          !t.isEmpty && t.all Char.isDigit))
  | _ => false

/-- Byte strings produced by the (abstract) protobuf collaborator. -/
abbrev Bytes := List Nat

/-- Observable effects of one dispatch, recorded in source order: whether
payload decoding was attempted and whether the handler was invoked. -/
inductive DispEvent where
  | decodeAttempt
  | handlerCall
deriving DecidableEq, Repr

/-- Result of `callInterfaceFunc` after the error split: the propagated
handler error, a unary reply value, or the contents of the streaming
handler's output channel. -/
inductive CallRes (Val : Type) where
  | errRes (e : String)
  | unaryRes (reply : Val)
  | streamRes (contents : List Val)

/-- Mirror of `callInterfaceFunc`: calls the handler and reads either
`(ret, err)` or `(retChan, closeChan, err)` according to the `streaming`
flag.  When the flag disagrees with the handler's actual shape the source
panics on an out-of-range `ret` index or a failed type assertion, hence
`none`. -/
def callInterfaceFunc {Val : Type} (h : HandlerVal Val) (streaming : Bool)
    (v : Val) : Option (CallRes Val) :=
  match h, streaming with
  | .unary f, false =>
    match f v with
    | (r, none) => some (.unaryRes r)
    | (_, some e) => some (.errRes e)
  | .streaming f, true =>
    match f v with
    | (vs, none) => some (.streamRes vs)
    | (_, some e) => some (.errRes e)
  | _, _ => none

/-- Model of the `StreamingTunnel`'s transport-facing side: the full trace
of byte strings sent into `outChan` and whether `outChan` was closed by the
forwarding goroutine.  (The `close` channel it also carries is the
handler's own close-signal channel and carries no data in this model.) -/
structure StreamingTunnel where
  out : List Bytes
  outClosed : Bool

/-- Mirror of the forwarding goroutine (lines 425-456) applied to the
finite sequence of values the handler sends before closing its channel:
each value is protobuf-encoded and forwarded; an encoding failure closes
`outChan` and stops; channel closure closes `outChan` and stops. -/
def forwardStream {Val : Type} (enc : Val → Option Bytes) :
    List Val → List Bytes × Bool
  | [] => ([], true)
  | v :: vs =>
    match enc v with
    | none => ([], true)
    | some b =>
      match forwardStream enc vs with
      | (rest, c) => (b :: rest, c)

/-- Full outcome of one `ProcessClientRequest` call: the post-state of the
`handlers` map (the method never writes it), the reply bytes, the streaming
tunnel, the returned error, and the observable dispatch events. -/
structure DispatchOut (Val : Type) where
  registry : Registry Val
  reply : Option Bytes
  tunnel : Option StreamingTunnel
  err : Option String
  events : List DispEvent

/-- Mirror of `ProcessClientRequest` (lines 400-466).  `dec` and `enc` are
the protobuf collaborator (`DecodeWithConstructors` and `Encode`).  The
branches follow the source: registry miss, decode failure, handler error,
then the streaming-tunnel branch or the unary encode (whose failure is
returned as `errors.New("")`).  `none` models a reflection panic; the
two shape-mismatch arms cannot arise from `callInterfaceFunc`, which only
returns `streamRes`/`unaryRes` when the flag matches the handler shape. -/
def ProcessClientRequest {Val : Type} (p : Registry Val)
    (dec : GoType → Bytes → Except String Val) (enc : Val → Option Bytes)
    (path : String) (buf : Bytes) : Option (DispatchOut Val) :=
  match p path with
  | none =>
    some ⟨p, none, none,
      some ("The requested message hasn't been registered: " ++ path), []⟩
  | some mh =>
    match dec mh.msgType buf with
    | .error e => some ⟨p, none, none, some e, [.decodeAttempt]⟩
    | .ok msg =>
      match callInterfaceFunc mh.handler mh.streaming msg with
      | none => none
      | some (.errRes e) =>
        some ⟨p, none, none, some e, [.decodeAttempt, .handlerCall]⟩
      | some (.streamRes vs) =>
        match mh.streaming with
        | true =>
          some ⟨p, none,
            some ⟨(forwardStream enc vs).1, (forwardStream enc vs).2⟩, none,
            [.decodeAttempt, .handlerCall]⟩
        | false => none
      | some (.unaryRes r) =>
        match mh.streaming with
        | true => none
        | false =>
          match enc r with
          | none => some ⟨p, none, none, some "", [.decodeAttempt, .handlerCall]⟩
          | some b => some ⟨p, some b, none, none, [.decodeAttempt, .handlerCall]⟩

/-
Concrete instances used by the witness and counterexample theorems below.
-/

def c9handler : serviceHandler Nat :=
  ⟨HandlerVal.unary (fun v => (v, none)), GoType.struc "onet.Msg" [], false⟩

def c9reg : Registry Nat := (Registry.empty Nat).insert "Msg" c9handler

def c3handler : serviceHandler Nat :=
  ⟨HandlerVal.streaming (fun v => ([v, v + 1, v + 2], none)),
   GoType.struc "onet.Stream" [], true⟩

def c3reg : Registry Nat := (Registry.empty Nat).insert "Stream" c3handler

def c1f : GoFunc Nat :=
  ⟨GoType.func [GoType.ptr (GoType.struc "network.Body" [])]
     [GoType.ptr (GoType.struc "network.Body" []), GoType.iface true],
   HandlerVal.unary (fun v => (v, none))⟩

def c10uf : GoFunc Nat :=
  ⟨GoType.func [GoType.ptr (GoType.struc "struct \x7b X int \x7d" [("X", GoType.intT)])]
     [GoType.ptr (GoType.struc "network.Body" []), GoType.iface true],
   HandlerVal.unary (fun v => (v, none))⟩

def c10sf : GoFunc Nat :=
  ⟨GoType.func [GoType.ptr (GoType.struc "struct \x7b X int \x7d" [("X", GoType.intT)])]
     [GoType.chan (GoType.iface false), GoType.chan GoType.boolT, GoType.iface true],
   HandlerVal.streaming (fun v => ([v], none))⟩

/-- Shape of a first streaming return value that passes the source's check:
a channel of an interface, or a channel of a pointer to a struct. -/
def validStreamRet0 (t : GoType) : Prop :=
  (∃ b, t = GoType.chan (GoType.iface b)) ∨
    ∃ s, t = GoType.chan (GoType.ptr s) ∧ s.kind = GoKind.struct

def c5f : GoFunc Nat := ⟨GoType.intT, HandlerVal.other⟩

def c7f : GoFunc Nat :=
  ⟨GoType.func [GoType.ptr (GoType.struc "onet.Count" [("Index", GoType.intT)])]
     [GoType.ptr (GoType.struc "onet.CountReply" []), GoType.iface true],
   HandlerVal.unary (fun v => (v, none))⟩

def c6f : GoFunc Nat :=
  ⟨GoType.func [GoType.ptr (GoType.struc "onet.res" [("F", GoType.intT)])]
     [GoType.ptr (GoType.struc "onet.resReply" []), GoType.iface true],
   HandlerVal.unary (fun v => (v, none))⟩

def c6route : RESTRoute Nat :=
  ⟨"/v3/ns/res/", kindGET.intGET, "F", "ns", "res",
   ⟨HandlerVal.unary (fun v => (v, none)),
    GoType.struc "onet.res" [("F", GoType.intT)], false⟩⟩

lemma kind_interface_inv {t : GoType} (h : t.kind = GoKind.interface) :
    ∃ b, t = GoType.iface b := by
  cases t <;> first
    | exact ⟨_, rfl⟩
    | simp [GoType.kind] at h

lemma kind_int_inv {t : GoType} (h : t.kind = GoKind.int) : t = GoType.intT := by
  cases t <;> first
    | rfl
    | simp [GoType.kind] at h

lemma kind_uint8_inv {t : GoType} (h : t.kind = GoKind.uint8) : t = GoType.uint8T := by
  cases t <;> first
    | rfl
    | simp [GoType.kind] at h

lemma forwardStream_map {Val : Type} (enc : Val → Option Bytes) (encT : Val → Bytes) :
    ∀ vs : List Val, (∀ v ∈ vs, enc v = some (encT v)) →
      forwardStream enc vs = (vs.map encT, true) := by
  intro vs h
  induction vs with
  | nil => rfl
  | cons v vs ih =>
    have hv : enc v = some (encT v) := h v (List.mem_cons_self v vs)
    have ih' := ih (fun x hx => h x (List.mem_cons_of_mem v hx))
    simp [forwardStream, hv, ih']

/-- C4: dispatching an unregistered route key returns nil reply bytes, a nil
tunnel and the non-nil routing error, with no payload decoding attempted and
no handler invoked (the event trace is empty). -/
theorem C4_unregistered_route {Val : Type} (p : Registry Val)
    (dec : GoType → Bytes → Except String Val) (enc : Val → Option Bytes)
    (path : String) (buf : Bytes) (h : p path = none) :
    ProcessClientRequest p dec enc path buf =
      some ⟨p, none, none,
        some ("The requested message hasn't been registered: " ++ path), []⟩ := by
  unfold ProcessClientRequest
  rw [h]

/-- Witness for C4 at the empty registry and route key `X`. -/
theorem C4_unregistered_route_witness :
    ProcessClientRequest (Registry.empty Nat) (fun _ _ => Except.ok 0)
      (fun v => some [v]) "X" [] =
      some ⟨Registry.empty Nat, none, none,
        some "The requested message hasn't been registered: X", []⟩ :=
  C4_unregistered_route (Registry.empty Nat) (fun _ _ => Except.ok 0)
    (fun v => some [v]) "X" [] rfl

/-- C9: when a unary handler's reply fails to protobuf-encode, the dispatch
returns a non-nil error whose message is the empty string (the encode error
itself is only logged, never propagated). -/
theorem C9_encode_failure_empty_error {Val : Type} (p : Registry Val)
    (dec : GoType → Bytes → Except String Val) (enc : Val → Option Bytes)
    (path : String) (buf : Bytes) (mh : serviceHandler Val)
    (f : Val → Val × Option String) (v r : Val)
    (hmh : p path = some mh) (hs : mh.streaming = false)
    (hh : mh.handler = HandlerVal.unary f)
    (hdec : dec mh.msgType buf = Except.ok v)
    (hf : f v = (r, none)) (henc : enc r = none) :
    ProcessClientRequest p dec enc path buf =
      some ⟨p, none, none, some "",
        [DispEvent.decodeAttempt, DispEvent.handlerCall]⟩ := by
  simp [ProcessClientRequest, hmh, hdec, callInterfaceFunc, hh, hs, hf, henc]

/-- Witness for C9: a concrete unary route whose reply never encodes. -/
theorem C9_encode_failure_empty_error_witness :
    ProcessClientRequest c9reg (fun _ _ => Except.ok 0) (fun _ => none) "Msg" [] =
      some ⟨c9reg, none, none, some "",
        [DispEvent.decodeAttempt, DispEvent.handlerCall]⟩ :=
  C9_encode_failure_empty_error c9reg (fun _ _ => Except.ok 0) (fun _ => none)
    "Msg" [] c9handler (fun v => (v, none)) 0 0 rfl rfl rfl rfl rfl rfl

/-- C3: on a streaming route whose handler sends exactly the values `vs`
and then closes its channel, and whose items all encode successfully, the
tunnel's transport-facing channel carries exactly the encoded items in the
order sent and is then closed (no extra items, none dropped). -/
theorem C3_stream_forwarding {Val : Type} (p : Registry Val)
    (dec : GoType → Bytes → Except String Val) (enc : Val → Option Bytes)
    (encT : Val → Bytes) (path : String) (buf : Bytes)
    (mh : serviceHandler Val) (f : Val → List Val × Option String)
    (v : Val) (vs : List Val)
    (hmh : p path = some mh) (hs : mh.streaming = true)
    (hh : mh.handler = HandlerVal.streaming f)
    (hdec : dec mh.msgType buf = Except.ok v)
    (hf : f v = (vs, none))
    (henc : ∀ x ∈ vs, enc x = some (encT x)) :
    ProcessClientRequest p dec enc path buf =
      some ⟨p, none, some ⟨vs.map encT, true⟩, none,
        [DispEvent.decodeAttempt, DispEvent.handlerCall]⟩ ∧
      (vs.map encT).length = vs.length := by
  refine ⟨?_, List.length_map vs encT⟩
  simp [ProcessClientRequest, hmh, hdec, callInterfaceFunc, hh, hs, hf,
    forwardStream_map enc encT vs henc]

/-- Witness for C3: a concrete streaming route sending three values. -/
theorem C3_stream_forwarding_witness :
    ProcessClientRequest c3reg (fun _ _ => Except.ok 5) (fun v => some [v])
      "Stream" [] =
      some ⟨c3reg, none, some ⟨[[5], [6], [7]], true⟩, none,
        [DispEvent.decodeAttempt, DispEvent.handlerCall]⟩ ∧
      ([5, 6, 7].map (fun v : Nat => [v])).length = [5, 6, 7].length :=
  C3_stream_forwarding c3reg (fun _ _ => Except.ok 5) (fun v => some [v])
    (fun v => [v]) "Stream" [] c3handler (fun v => ([v, v + 1, v + 2], none))
    5 [5, 6, 7] rfl rfl rfl rfl rfl (fun _ _ => rfl)

/-- C2: whenever `ProcessClientRequest` returns a nil error, exactly one of
the reply bytes and the streaming tunnel is non-nil — the reply for a unary
route, the tunnel for a streaming route. -/
theorem C2_exactly_one {Val : Type} (p : Registry Val)
    (dec : GoType → Bytes → Except String Val) (enc : Val → Option Bytes)
    (path : String) (buf : Bytes) (out : DispatchOut Val)
    (h : ProcessClientRequest p dec enc path buf = some out)
    (herr : out.err = none) :
    ∃ mh, p path = some mh ∧
      (mh.streaming = true → out.reply = none ∧ out.tunnel ≠ none) ∧
      (mh.streaming = false → out.reply ≠ none ∧ out.tunnel = none) := by
  unfold ProcessClientRequest at h
  rcases hp : p path with _ | mh <;> simp only [hp] at h
  · rw [Option.some.injEq] at h
    subst h
    simp at herr
  · refine ⟨mh, rfl, ?_⟩
    rcases hd : dec mh.msgType buf with e | msg <;> simp only [hd] at h
    · rw [Option.some.injEq] at h
      subst h
      simp at herr
    · rcases hc : callInterfaceFunc mh.handler mh.streaming msg with _ | res <;>
        simp only [hc] at h
      · exact Option.noConfusion h
      · rcases res with e | r | vs
        · rw [Option.some.injEq] at h
          subst h
          simp at herr
        · rcases hs : mh.streaming <;> simp only [hs] at h
          · rcases he : enc r with _ | b <;> simp only [he] at h
            · rw [Option.some.injEq] at h
              subst h
              simp at herr
            · rw [Option.some.injEq] at h
              subst h
              exact ⟨fun hx => Bool.noConfusion hx, fun _ => ⟨by simp, rfl⟩⟩
          · exact Option.noConfusion h
        · rcases hs : mh.streaming <;> simp only [hs] at h
          · exact Option.noConfusion h
          · rw [Option.some.injEq] at h
            subst h
            exact ⟨fun _ => ⟨rfl, by simp⟩, fun hx => Bool.noConfusion hx⟩

/-- Witness for C2 at a concrete unary route. -/
theorem C2_exactly_one_witness :
    ∃ mh, c9reg "Msg" = some mh ∧
      (mh.streaming = true →
        (DispatchOut.mk c9reg (some [3]) none none
          [DispEvent.decodeAttempt, DispEvent.handlerCall]).reply = none ∧
        (DispatchOut.mk c9reg (some [3]) none none
          [DispEvent.decodeAttempt, DispEvent.handlerCall]).tunnel ≠ none) ∧
      (mh.streaming = false →
        (DispatchOut.mk c9reg (some [3]) none none
          [DispEvent.decodeAttempt, DispEvent.handlerCall]).reply ≠ none ∧
        (DispatchOut.mk c9reg (some [3]) none none
          [DispEvent.decodeAttempt, DispEvent.handlerCall]).tunnel = none) :=
  C2_exactly_one c9reg (fun _ _ => Except.ok 3) (fun v => some [v]) "Msg" []
    (DispatchOut.mk c9reg (some [3]) none none
      [DispEvent.decodeAttempt, DispEvent.handlerCall]) rfl rfl

/-- C1: for every valid unary handler signature whose input struct has a
package-qualified name (exactly one namespace separator, as a named Go
struct type renders), `RegisterHandler` returns nil and stores the entry
under the final segment of the qualified name. -/
theorem C1_register_valid_unary {Val : Type} (p : Registry Val) (f : GoFunc Val)
    (nm : String) (flds : List (String × GoType)) (ret0 ret1 : GoType)
    (hty : f.type = GoType.func [GoType.ptr (GoType.struc nm flds)] [ret0, ret1])
    (h0 : ret0.kind = GoKind.interface ∨
      ∃ s, ret0 = GoType.ptr s ∧ s.kind = GoKind.struct)
    (h1 : ret1.implementsError = true)
    (hnm : (stringSplitDot nm).length = 2) :
    RegisterHandler p f =
      some (p.insert ((stringSplitDot nm).getLastD "")
        ⟨f.val, GoType.struc nm flds, false⟩, none) := by
  obtain ⟨a, b, hab⟩ := List.length_eq_two.mp hnm
  have hck : checkUnaryOut0 ret0 = none := by
    rcases h0 with h | ⟨s, rfl, hs⟩
    · obtain ⟨bb, rfl⟩ := kind_interface_inv h
      rfl
    · simp [checkUnaryOut0, hs]
  simp [RegisterHandler, handlerInputCheck, hty, GoType.kind, createServiceHandler,
    hck, h1, GoType.elem, GoType.typeString, hab]

/-- Witness for C1: registering a unary handler for `*network.Body` stores
it under route key `Body` and returns nil. -/
theorem C1_register_valid_unary_witness :
    RegisterHandler (Registry.empty Nat) c1f =
      some ((Registry.empty Nat).insert ((stringSplitDot "network.Body").getLastD "")
        ⟨c1f.val, GoType.struc "network.Body" [], false⟩, none) :=
  C1_register_valid_unary (Registry.empty Nat) c1f "network.Body" []
    (GoType.ptr (GoType.struc "network.Body" [])) (GoType.iface true) rfl
    (Or.inr ⟨GoType.struc "network.Body" [], rfl, rfl⟩) rfl (by decide)

/-- C10: a handler whose single argument is a pointer to an anonymous
struct (its rendered type name `struct ... ` contains no namespace
separator) passes the signature check, yet both registration operations
panic while indexing segment `[1]` of the split name (`none` in the model)
instead of returning an error. -/
theorem C10_anonymous_struct_panic :
    handlerInputCheck c10uf.type = none ∧
    handlerInputCheck c10sf.type = none ∧
    createServiceHandler c10uf = none ∧
    RegisterHandler (Registry.empty Nat) c10uf = none ∧
    RegisterStreamingHandler (Registry.empty Nat) c10sf = none :=
  ⟨rfl, rfl, rfl, rfl, rfl⟩

lemma Registry.insert_isSome {Val : Type} (p : Registry Val) (pm : String)
    (sh : serviceHandler Val) (k : String) (hk : (p k).isSome = true) :
    ((p.insert pm sh) k).isSome = true := by
  unfold Registry.insert
  by_cases h : k = pm <;> simp [h, hk]

lemma somePair_inj {α β : Type _} {x x' : α} {y y' : β}
    (h : some (x, y) = some (x', y')) : x' = x ∧ y' = y := by
  cases h
  exact ⟨rfl, rfl⟩

lemma RegisterHandler_mono {Val : Type} (p : Registry Val) (f : GoFunc Val)
    (p' : Registry Val) (e : Option String)
    (h : RegisterHandler p f = some (p', e)) (k : String)
    (hk : (p k).isSome = true) : (p' k).isSome = true := by
  unfold RegisterHandler at h
  repeat' split at h
  all_goals first
    | exact Option.noConfusion h
    | (obtain ⟨hp, -⟩ := somePair_inj h
       subst hp
       exact hk)
    | (obtain ⟨hp, -⟩ := somePair_inj h
       subst hp
       exact Registry.insert_isSome p _ _ k hk)

lemma RegisterStreamingHandler_mono {Val : Type} (p : Registry Val) (f : GoFunc Val)
    (p' : Registry Val) (e : Option String)
    (h : RegisterStreamingHandler p f = some (p', e)) (k : String)
    (hk : (p k).isSome = true) : (p' k).isSome = true := by
  unfold RegisterStreamingHandler at h
  repeat' split at h
  all_goals first
    | exact Option.noConfusion h
    | (obtain ⟨hp, -⟩ := somePair_inj h
       subst hp
       exact hk)
    | (obtain ⟨hp, -⟩ := somePair_inj h
       subst hp
       exact Registry.insert_isSome p _ _ k hk)

lemma RegisterHandlers_mono {Val : Type} (fs : List (GoFunc Val)) :
    ∀ (p p' : Registry Val) (e : Option String),
      RegisterHandlers p fs = some (p', e) → ∀ k, (p k).isSome = true →
        (p' k).isSome = true := by
  induction fs with
  | nil =>
    intro p p' e h k hk
    unfold RegisterHandlers at h
    rw [Option.some.injEq, Prod.mk.injEq] at h
    rcases h with ⟨hp, _⟩
    subst hp
    exact hk
  | cons f fs ih =>
    intro p p' e h k hk
    unfold RegisterHandlers at h
    rcases hr : RegisterHandler p f with _ | pe <;> simp only [hr] at h
    · exact Option.noConfusion h
    · rcases pe with ⟨p1, _ | msg⟩
      · exact ih p1 p' e h k (RegisterHandler_mono p f p1 none hr k hk)
      · rw [Option.some.injEq, Prod.mk.injEq] at h
        rcases h with ⟨hp, _⟩
        subst hp
        exact RegisterHandler_mono p f p1 (some msg) hr k hk

lemma RegisterStreamingHandlers_mono {Val : Type} (fs : List (GoFunc Val)) :
    ∀ (p p' : Registry Val) (e : Option String),
      RegisterStreamingHandlers p fs = some (p', e) → ∀ k, (p k).isSome = true →
        (p' k).isSome = true := by
  induction fs with
  | nil =>
    intro p p' e h k hk
    unfold RegisterStreamingHandlers at h
    rw [Option.some.injEq, Prod.mk.injEq] at h
    rcases h with ⟨hp, _⟩
    subst hp
    exact hk
  | cons f fs ih =>
    intro p p' e h k hk
    unfold RegisterStreamingHandlers at h
    rcases hr : RegisterStreamingHandler p f with _ | pe <;> simp only [hr] at h
    · exact Option.noConfusion h
    · rcases pe with ⟨p1, _ | msg⟩
      · exact ih p1 p' e h k (RegisterStreamingHandler_mono p f p1 none hr k hk)
      · rw [Option.some.injEq, Prod.mk.injEq] at h
        rcases h with ⟨hp, _⟩
        subst hp
        exact RegisterStreamingHandler_mono p f p1 (some msg) hr k hk

lemma RegisterRESTHandler_registry_eq {Val : Type} (p : Registry Val)
    (f : GoFunc Val) (since : Int) (ns method : String) (p' : Registry Val)
    (r : Except String (RESTRoute Val))
    (h : RegisterRESTHandler p f since ns method = some (p', r)) : p' = p := by
  unfold RegisterRESTHandler at h
  repeat' split at h
  all_goals first
    | exact Option.noConfusion h
    | exact (somePair_inj h).1

lemma ProcessClientRequest_registry_eq {Val : Type} (p : Registry Val)
    (dec : GoType → Bytes → Except String Val) (enc : Val → Option Bytes)
    (path : String) (buf : Bytes) (out : DispatchOut Val)
    (h : ProcessClientRequest p dec enc path buf = some out) : out.registry = p := by
  unfold ProcessClientRequest at h
  repeat' split at h
  all_goals first
    | exact Option.noConfusion h
    | (rw [Option.some.injEq] at h
       subst h
       rfl)

/-- C8: the registry never shrinks.  Every route key present before any of
the six `ServiceProcessor` operations is still present in the post-state
registry; `RegisterRESTHandler` and `ProcessClientRequest` leave the
`handlers` map exactly as it was. -/
theorem C8_registry_never_shrinks {Val : Type} (p : Registry Val) (k : String)
    (hk : (p k).isSome = true) :
    (∀ f p' e, RegisterHandler p f = some (p', e) → (p' k).isSome = true) ∧
    (∀ f p' e, RegisterStreamingHandler p f = some (p', e) → (p' k).isSome = true) ∧
    (∀ fs p' e, RegisterHandlers p fs = some (p', e) → (p' k).isSome = true) ∧
    (∀ fs p' e, RegisterStreamingHandlers p fs = some (p', e) → (p' k).isSome = true) ∧
    (∀ f since ns method p' r,
       RegisterRESTHandler p f since ns method = some (p', r) → p' = p) ∧
    (∀ dec enc path buf out,
       ProcessClientRequest p dec enc path buf = some out → out.registry = p) :=
  ⟨fun f p' e h => RegisterHandler_mono p f p' e h k hk,
   fun f p' e h => RegisterStreamingHandler_mono p f p' e h k hk,
   fun fs p' e h => RegisterHandlers_mono fs p p' e h k hk,
   fun fs p' e h => RegisterStreamingHandlers_mono fs p p' e h k hk,
   fun f since ns method p' r h =>
     RegisterRESTHandler_registry_eq p f since ns method p' r h,
   fun dec enc path buf out h =>
     ProcessClientRequest_registry_eq p dec enc path buf out h⟩

/-- Witness for C8: the key `Msg` survives a further registration. -/
theorem C8_registry_never_shrinks_witness :
    ((c9reg.insert "Body" ⟨c1f.val, GoType.struc "network.Body" [], false⟩) "Msg").isSome
      = true :=
  (C8_registry_never_shrinks c9reg "Msg" rfl).1 c1f
    (c9reg.insert "Body" ⟨c1f.val, GoType.struc "network.Body" [], false⟩) none rfl

lemma validStreamRet0_check {t : GoType} (h : validStreamRet0 t) :
    checkStreamOut0 t = none := by
  rcases h with ⟨b, rfl⟩ | ⟨s, rfl, hs⟩
  · rfl
  · simp [checkStreamOut0, hs]

/-- C5: every malformed handler signature — not a function, wrong argument
count, non-pointer or non-struct argument, wrong number or types of return
values — makes both `RegisterHandler` and `RegisterStreamingHandler` return
the non-nil, position-specific error of the first failing check, and leaves
the registry exactly as it was (the post-state is `p` itself). -/
theorem C5_malformed_signature_rejected {Val : Type} (p : Registry Val)
    (f : GoFunc Val) :
    (f.type.kind ≠ GoKind.func →
      RegisterHandler p f = some (p, some "Input is not a function") ∧
      RegisterStreamingHandler p f = some (p, some "Input is not a function")) ∧
    (∀ ins outs, f.type = GoType.func ins outs → ins.length ≠ 1 →
      RegisterHandler p f = some (p, some "Need one argument: *struct") ∧
      RegisterStreamingHandler p f = some (p, some "Need one argument: *struct")) ∧
    (∀ cr outs, f.type = GoType.func [cr] outs → cr.kind ≠ GoKind.ptr →
      RegisterHandler p f = some (p, some "Argument must be a *pointer* to a struct") ∧
      RegisterStreamingHandler p f =
        some (p, some "Argument must be a *pointer* to a struct")) ∧
    (∀ e outs, f.type = GoType.func [GoType.ptr e] outs → e.kind ≠ GoKind.struct →
      RegisterHandler p f = some (p, some "Argument must be a pointer to *struct*") ∧
      RegisterStreamingHandler p f =
        some (p, some "Argument must be a pointer to *struct*")) ∧
    (∀ nm flds outs,
      f.type = GoType.func [GoType.ptr (GoType.struc nm flds)] outs →
      outs.length ≠ 2 →
      RegisterHandler p f =
        some (p, some "Need 2 return values: network.Body and error")) ∧
    (∀ nm flds outs,
      f.type = GoType.func [GoType.ptr (GoType.struc nm flds)] outs →
      outs.length ≠ 3 →
      RegisterStreamingHandler p f =
        some (p, some "Need 3 return values: chan interface\x7b\x7d, chan bool and error")) ∧
    (∀ nm flds r0 r1,
      f.type = GoType.func [GoType.ptr (GoType.struc nm flds)] [r0, r1] →
      r0.kind ≠ GoKind.interface → r0.kind ≠ GoKind.ptr →
      RegisterHandler p f =
        some (p, some "1st return value must be a *pointer* to a struct or an interface")) ∧
    (∀ nm flds e1 r1,
      f.type = GoType.func [GoType.ptr (GoType.struc nm flds)] [GoType.ptr e1, r1] →
      e1.kind ≠ GoKind.struct →
      RegisterHandler p f =
        some (p, some "1st return value must be a pointer to a *struct* or an interface")) ∧
    (∀ nm flds r0 r1,
      f.type = GoType.func [GoType.ptr (GoType.struc nm flds)] [r0, r1] →
      (r0.kind = GoKind.interface ∨ ∃ s, r0 = GoType.ptr s ∧ s.kind = GoKind.struct) →
      r1.implementsError = false →
      RegisterHandler p f =
        some (p, some ("2nd return value has to implement error, but is: "
          ++ r1.typeString))) ∧
    (∀ nm flds r0 r1 r2,
      f.type = GoType.func [GoType.ptr (GoType.struc nm flds)] [r0, r1, r2] →
      r0.kind ≠ GoKind.chan →
      RegisterStreamingHandler p f =
        some (p, some "1st return value must be a channel")) ∧
    (∀ nm flds c0 r1 r2,
      f.type = GoType.func [GoType.ptr (GoType.struc nm flds)] [GoType.chan c0, r1, r2] →
      c0.kind ≠ GoKind.interface → c0.kind ≠ GoKind.ptr →
      RegisterStreamingHandler p f =
        some (p, some "1st return value must be a channel of a *pointer* to a struct")) ∧
    (∀ nm flds e0 r1 r2,
      f.type = GoType.func [GoType.ptr (GoType.struc nm flds)]
        [GoType.chan (GoType.ptr e0), r1, r2] →
      e0.kind ≠ GoKind.struct →
      RegisterStreamingHandler p f =
        some (p, some "1st return value must be a channel of a pointer to a *struct*")) ∧
    (∀ nm flds r0 r1 r2,
      f.type = GoType.func [GoType.ptr (GoType.struc nm flds)] [r0, r1, r2] →
      validStreamRet0 r0 → r1.kind ≠ GoKind.chan →
      RegisterStreamingHandler p f =
        some (p, some "2nd return value must be a channel")) ∧
    (∀ nm flds r0 c1 r2,
      f.type = GoType.func [GoType.ptr (GoType.struc nm flds)] [r0, GoType.chan c1, r2] →
      validStreamRet0 r0 → c1.kind ≠ GoKind.bool →
      RegisterStreamingHandler p f =
        some (p, some "2nd return value must be a boolean channel")) ∧
    (∀ nm flds r0 c1 r2,
      f.type = GoType.func [GoType.ptr (GoType.struc nm flds)] [r0, GoType.chan c1, r2] →
      validStreamRet0 r0 → c1.kind = GoKind.bool →
      r2.implementsError = false →
      RegisterStreamingHandler p f =
        some (p, some ("3rd return value has to implement error, but is: "
          ++ r2.typeString))) := by
  refine ⟨?_, ?_, ?_, ?_, ?_, ?_, ?_, ?_, ?_, ?_, ?_, ?_, ?_, ?_, ?_⟩
  · intro hknd
    have hm : handlerInputCheck f.type = some "Input is not a function" := by
      cases hty : f.type <;>
        first
          | rfl
          | exact absurd (by rw [hty]; rfl) hknd
    constructor <;> simp [RegisterHandler, RegisterStreamingHandler, hm]
  · intro ins outs hty hlen
    have hm : handlerInputCheck f.type = some "Need one argument: *struct" := by
      rw [hty]
      rcases ins with _ | ⟨cr, _ | ⟨cr2, rest⟩⟩
      · rfl
      · exact absurd rfl hlen
      · rfl
    constructor <;> simp [RegisterHandler, RegisterStreamingHandler, hm]
  · intro cr outs hty hknd
    have hm : handlerInputCheck f.type =
        some "Argument must be a *pointer* to a struct" := by
      rw [hty]
      cases cr <;> first | rfl | exact absurd rfl hknd
    constructor <;> simp [RegisterHandler, RegisterStreamingHandler, hm]
  · intro e outs hty hknd
    have hm : handlerInputCheck f.type =
        some "Argument must be a pointer to *struct*" := by
      rw [hty]
      simp [handlerInputCheck, hknd]
    constructor <;> simp [RegisterHandler, RegisterStreamingHandler, hm]
  · intro nm flds outs hty hlen
    rcases outs with _ | ⟨a, _ | ⟨b, _ | ⟨c, rest⟩⟩⟩
    · simp [RegisterHandler, handlerInputCheck, hty, GoType.kind, createServiceHandler]
    · simp [RegisterHandler, handlerInputCheck, hty, GoType.kind, createServiceHandler]
    · exact absurd rfl hlen
    · simp [RegisterHandler, handlerInputCheck, hty, GoType.kind, createServiceHandler]
  · intro nm flds outs hty hlen
    rcases outs with _ | ⟨a, _ | ⟨b, _ | ⟨c, _ | ⟨d, rest⟩⟩⟩⟩
    · simp [RegisterStreamingHandler, handlerInputCheck, hty, GoType.kind]
    · simp [RegisterStreamingHandler, handlerInputCheck, hty, GoType.kind]
    · simp [RegisterStreamingHandler, handlerInputCheck, hty, GoType.kind]
    · exact absurd rfl hlen
    · simp [RegisterStreamingHandler, handlerInputCheck, hty, GoType.kind]
  · intro nm flds r0 r1 hty h1 h2
    have h0 : checkUnaryOut0 r0 =
        some "1st return value must be a *pointer* to a struct or an interface" := by
      cases r0 <;> first | rfl | exact absurd rfl h1 | exact absurd rfl h2
    simp [RegisterHandler, handlerInputCheck, hty, GoType.kind,
      createServiceHandler, h0]
  · intro nm flds e1 r1 hty hknd
    have h0 : checkUnaryOut0 (GoType.ptr e1) =
        some "1st return value must be a pointer to a *struct* or an interface" := by
      simp [checkUnaryOut0, hknd]
    simp [RegisterHandler, handlerInputCheck, hty, GoType.kind,
      createServiceHandler, h0]
  · intro nm flds r0 r1 hty h0ok h1f
    have h0 : checkUnaryOut0 r0 = none := by
      rcases h0ok with h | ⟨s, rfl, hs⟩
      · obtain ⟨b, rfl⟩ := kind_interface_inv h
        rfl
      · simp [checkUnaryOut0, hs]
    simp [RegisterHandler, handlerInputCheck, hty, GoType.kind,
      createServiceHandler, h0, h1f]
  · intro nm flds r0 r1 r2 hty hknd
    have h0 : checkStreamOut0 r0 = some "1st return value must be a channel" := by
      cases r0 <;> first | rfl | exact absurd rfl hknd
    simp [RegisterStreamingHandler, handlerInputCheck, hty, GoType.kind, h0]
  · intro nm flds c0 r1 r2 hty h1 h2
    have h0 : checkStreamOut0 (GoType.chan c0) =
        some "1st return value must be a channel of a *pointer* to a struct" := by
      cases c0 <;> first | rfl | exact absurd rfl h1 | exact absurd rfl h2
    simp [RegisterStreamingHandler, handlerInputCheck, hty, GoType.kind, h0]
  · intro nm flds e0 r1 r2 hty hknd
    have h0 : checkStreamOut0 (GoType.chan (GoType.ptr e0)) =
        some "1st return value must be a channel of a pointer to a *struct*" := by
      simp [checkStreamOut0, hknd]
    simp [RegisterStreamingHandler, handlerInputCheck, hty, GoType.kind, h0]
  · intro nm flds r0 r1 r2 hty h0ok hknd
    have h1 : checkStreamOut1 r1 = some "2nd return value must be a channel" := by
      cases r1 <;> first | rfl | exact absurd rfl hknd
    simp [RegisterStreamingHandler, handlerInputCheck, hty, GoType.kind,
      validStreamRet0_check h0ok, h1]
  · intro nm flds r0 c1 r2 hty h0ok hknd
    have h1 : checkStreamOut1 (GoType.chan c1) =
        some "2nd return value must be a boolean channel" := by
      simp [checkStreamOut1, hknd]
    simp [RegisterStreamingHandler, handlerInputCheck, hty, GoType.kind,
      validStreamRet0_check h0ok, h1]
  · intro nm flds r0 c1 r2 hty h0ok hb h2f
    have h1 : checkStreamOut1 (GoType.chan c1) = none := by
      simp [checkStreamOut1, hb]
    simp [RegisterStreamingHandler, handlerInputCheck, hty, GoType.kind,
      validStreamRet0_check h0ok, h1, h2f]

/-- Witness for C5: an `int` value is not a function; both registrations
reject it with the first check's message and the registry is unchanged. -/
theorem C5_malformed_signature_rejected_witness :
    RegisterHandler (Registry.empty Nat) c5f =
      some (Registry.empty Nat, some "Input is not a function") ∧
    RegisterStreamingHandler (Registry.empty Nat) c5f =
      some (Registry.empty Nat, some "Input is not a function") :=
  (C5_malformed_signature_rejected (Registry.empty Nat) c5f).1 (by decide)

/-- C7: `RegisterRESTHandler` rejects any method outside GET/POST/PUT, and
rejects `since < 3` for a supported method; and a successful GET
registration forces the handler's input struct to have either zero fields
or exactly one field of type `int` or `[]byte`. -/
theorem C7_rest_registration_validation {Val : Type} (p : Registry Val)
    (f : GoFunc Val) (since : Int) (ns method : String) :
    (method ≠ "GET" ∧ method ≠ "POST" ∧ method ≠ "PUT" →
      RegisterRESTHandler p f since ns method =
        some (p, Except.error "invalid REST method")) ∧
    ((method = "GET" ∨ method = "POST" ∨ method = "PUT") → since < 3 →
      RegisterRESTHandler p f since ns method =
        some (p, Except.error
          "earliest supported API level must be greater or equal to 3")) ∧
    (∀ p' route, method = "GET" →
      RegisterRESTHandler p f since ns method = some (p', Except.ok route) →
      ∃ ins outs cr nm flds, f.type = GoType.func ins outs ∧ ins[0]? = some cr ∧
        cr.elem = some (GoType.struc nm flds) ∧
        (flds = [] ∨ (∃ fn, flds = [(fn, GoType.intT)]) ∨
          (∃ fn, flds = [(fn, GoType.sliceT GoType.uint8T)]))) := by
  refine ⟨?_, ?_, ?_⟩
  · intro hbad
    unfold RegisterRESTHandler
    rw [if_pos hbad]
  · intro hm hsince
    have hcond : ¬(method ≠ "GET" ∧ method ≠ "POST" ∧ method ≠ "PUT") := by
      rcases hm with h | h | h <;> simp [h]
    unfold RegisterRESTHandler
    rw [if_neg hcond, if_pos hsince]
  · intro p' route hm h
    subst hm
    unfold RegisterRESTHandler at h
    rw [if_neg (by simp)] at h
    split at h
    · exact absurd h (by simp)
    · rcases hc : createServiceHandler f with _ | rr <;> simp only [hc] at h
      · exact Option.noConfusion h
      · rcases rr with msg | ⟨resource, sh⟩
        · exact absurd h (by simp)
        · simp only [if_true] at h
          rcases hg : prepareHandlerGET f.type with _ | kr <;> simp only [hg] at h
          · exact Option.noConfusion h
          · rcases kr with msg | ⟨k, fn⟩
            · exact absurd h (by simp)
            · clear h
              unfold prepareHandlerGET at hg
              split at hg
              · rename_i ins outs hfty
                split at hg
                · exact Option.noConfusion hg
                · rename_i cr hcr
                  split at hg
                  · exact Option.noConfusion hg
                  · rename_i in0 hin0
                    split at hg
                    · rename_i nm fields
                      refine ⟨ins, outs, cr, nm, fields, hfty, hcr, ?_, ?_⟩
                      · rw [hin0]
                      · split at hg
                        · exact Or.inl rfl
                        · rename_i fname ftype
                          split at hg
                          · rename_i hslice
                            refine Or.inr (Or.inr ⟨fname, ?_⟩)
                            cases ftype <;> simp only [] at hslice <;>
                              try exact Bool.noConfusion hslice
                            rename_i e
                            rw [beq_iff_eq] at hslice
                            rw [kind_uint8_inv hslice]
                          · split at hg
                            · rename_i hint
                              exact Or.inr (Or.inl ⟨fname,
                                by rw [kind_int_inv hint]⟩)
                            · exact absurd hg (by simp)
                        · exact absurd hg (by simp)
                    · exact absurd hg (by simp)
              · exact Option.noConfusion hg

/-- Witness for C7: method `DELETE` is rejected, and `minVersion = 2`
with method `GET` is rejected. -/
theorem C7_rest_registration_validation_witness :
    RegisterRESTHandler (Registry.empty Nat) c7f 3 "ns" "DELETE" =
      some (Registry.empty Nat, Except.error "invalid REST method") ∧
    RegisterRESTHandler (Registry.empty Nat) c7f 2 "ns" "GET" =
      some (Registry.empty Nat, Except.error
        "earliest supported API level must be greater or equal to 3") :=
  ⟨(C7_rest_registration_validation (Registry.empty Nat) c7f 3 "ns" "DELETE").1
      (by decide),
   (C7_rest_registration_validation (Registry.empty Nat) c7f 2 "ns" "GET").2.1
      (Or.inl rfl) (by decide)⟩

lemma foldl_seg_no_slash (t : List Char) (h : t.all (fun c => c != '/') = true) :
    ∀ acc : List Char,
      t.foldl (fun acc c => if c = '/' then [] else acc ++ [c]) acc = acc ++ t := by
  induction t with
  | nil =>
    intro acc
    simp
  | cons c cs ih =>
    intro acc
    rw [List.all_cons, Bool.and_eq_true] at h
    have hc : ¬(c = '/') := by
      intro hcc
      rw [hcc] at h
      simp at h
    simp only [List.foldl_cons, if_neg hc]
    rw [ih h.2 (acc ++ [c])]
    simp

lemma foldl_after_slash (xs t : List Char) (h : t.all (fun c => c != '/') = true) :
    (xs ++ '/' :: t).foldl (fun acc c => if c = '/' then [] else acc ++ [c]) [] = t := by
  rw [List.foldl_append, List.foldl_cons, if_pos rfl, foldl_seg_no_slash t h []]
  simp

lemma matchVPath_parts {tailOk : Char → Bool} {ns resource p : String}
    (h : matchVPath tailOk ns resource p = true) :
    ∃ d t, p.toList =
        '/' :: 'v' :: d :: (("/" ++ ns ++ "/" ++ resource ++ "/").toList ++ t) ∧
      d.isDigit = true ∧ t ≠ [] ∧ t.all tailOk = true := by
  unfold matchVPath at h
  split at h
  · rename_i d rest hp
    rw [Bool.and_eq_true, Bool.and_eq_true, Bool.and_eq_true] at h
    obtain ⟨⟨hd, hpre⟩, hne, hall⟩ := h
    obtain ⟨s, hs⟩ := List.isPrefixOf_iff_prefix.mp hpre
    have hdrop : rest.drop ("/" ++ ns ++ "/" ++ resource ++ "/").toList.length = s := by
      rw [← hs]
      exact List.drop_left _ _
    refine ⟨d, s, ?_, hd, ?_, ?_⟩
    · rw [hp, ← hs]
    · rw [hdrop] at hne
      intro hempty
      rw [hempty] at hne
      simp at hne
    · rw [hdrop] at hall
      exact hall
  · exact Bool.noConfusion h

lemma isDigit_ne_slash (c : Char) (hc : c.isDigit = true) : (c != '/') = true := by
  rw [bne_iff_ne]
  intro hcc
  subst hcc
  exact absurd hc (by decide)

lemma matchVPath_pathBase {tailOk : Char → Bool} {ns resource p : String}
    (h : matchVPath tailOk ns resource p = true)
    (htl : ∀ c, tailOk c = true → (c != '/') = true) :
    (pathBase p).toList.all tailOk = true ∧ pathBase p ≠ "" := by
  obtain ⟨d, t, hp, hd, hne, hall⟩ := matchVPath_parts h
  have hslash : t.all (fun c => c != '/') = true := by
    rw [List.all_eq_true] at hall ⊢
    exact fun c hc => htl c (hall c hc)
  have hplist : p.toList =
      ('/' :: 'v' :: d :: ("/" ++ ns ++ "/" ++ resource).toList) ++ '/' :: t := by
    rw [hp]
    have hmid : ("/" ++ ns ++ "/" ++ resource ++ "/").toList
        = ("/" ++ ns ++ "/" ++ resource).toList ++ ['/'] := rfl
    rw [hmid]
    simp
  have hpb : pathBase p = String.mk t := by
    unfold pathBase
    rw [hplist, foldl_after_slash _ t hslash]
  constructor
  · rw [hpb]
    exact hall
  · rw [hpb]
    intro hcontra
    apply hne
    have : (String.mk t).data = ("" : String).data := by rw [hcontra]
    simpa using this

/-- C6 counterexample: the claim accepts any number of version digits
(`^/v\d+/...`), but the source regex (processor.go line 202) has a single
`\d` after `v`: the path `/v10/ns/res/42` matches the claimed pattern yet
the registered GET route answers 404 "invalid path". -/
theorem C6_counterexample :
    RegisterRESTHandler (Registry.empty Nat) c6f 3 "ns" "GET" =
      some (Registry.empty Nat, Except.ok c6route) ∧
    specGETIntAccept "ns" "res" "/v10/ns/res/42" = true ∧
    restHandlerStep c6route ⟨"GET", "/v10/ns/res/42", "", ""⟩ =
      RestStep.httpError 404 "invalid path" :=
  ⟨rfl, by decide, by decide⟩

/-- C6 amended: for a GET route of kind integer (with literal alphanumeric
namespace and resource names), a request path is accepted exactly when it
matches `^/v\d/{ns}/{resource}/\d+$` — one single digit after `v`; on a
match the trailing decimal segment (all digits, nonempty) is wrapped as
`{"<Field>": <num>}` (one space after the colon, as the source formatter
emits), and a non-matching path is rejected with 404. -/
theorem C6_amended {Val : Type} (route : RESTRoute Val) (r : Request)
    (hk : route.k = kindGET.intGET) (hm : r.method = "GET")
    (hns : route.ns.toList.all Char.isAlphanum = true)
    (hres : route.resource.toList.all Char.isAlphanum = true) :
    (matchGETIntPath route.ns route.resource r.urlPath = true →
      restHandlerStep route r =
        RestStep.payload ("\x7b\"" ++ route.fieldNameGET ++ "\": "
          ++ pathBase r.urlPath ++ "\x7d") ∧
      (pathBase r.urlPath).toList.all Char.isDigit = true ∧
      pathBase r.urlPath ≠ "") ∧
    (matchGETIntPath route.ns route.resource r.urlPath = false →
      restHandlerStep route r = RestStep.httpError 404 "invalid path") := by
  constructor
  · intro hmatch
    have hdig := matchVPath_pathBase hmatch isDigit_ne_slash
    refine ⟨?_, hdig.1, hdig.2⟩
    simp [restHandlerStep, hm, hk, hmatch]
  · intro hmatch
    simp [restHandlerStep, hm, hk, hmatch]

/-- Witness for the amended C6 at the spec's own example
`/v3/ns/res/42`. -/
theorem C6_amended_witness :
    restHandlerStep c6route ⟨"GET", "/v3/ns/res/42", "", ""⟩ =
      RestStep.payload "\x7b\"F\": 42\x7d" ∧
    (pathBase "/v3/ns/res/42").toList.all Char.isDigit = true ∧
    pathBase "/v3/ns/res/42" ≠ "" :=
  (C6_amended c6route ⟨"GET", "/v3/ns/res/42", "", ""⟩ rfl rfl (by decide)
    (by decide)).1 (by decide)

end Onet
